import Mathlib

set_option linter.unusedSectionVars false

/-!
Verification of the pose-interpolation and CSV-export core of
extract_georeferenced_images.py (bag_metashape_export).

The embedding is a shallow translation of the Python source.  Numeric
channel values are modelled as elements of a linear ordered field (the
program computes with IEEE doubles; claims are settled in exact
arithmetic, instantiated at ℚ for executable witnesses and at ℝ for the
statements that involve the transcendental degree conversions).  The
scipy routine interpolate.interp1d, which the source calls with
kind set to linear and fill_value set to extrapolate, is modelled from
its documented and well-known implementation:

  - the constructor stably sorts the knots by x (np.argsort with
    kind mergesort) because assume_sorted defaults to False;
  - the constructor raises ValueError with the message
    "x and y arrays must have at least 2 entries" when fewer than two
    knots are supplied for linear interpolation;
  - evaluation follows interp1d._call_linear: with
    i = clip(searchsorted(x, t), 1, n-1), lo = i-1, hi = i, the result
    is (y[hi]-y[lo])/(x[hi]-x[lo]) * (t - x[lo]) + y[lo]; the
    extrapolate fill value disables the out-of-bounds mask, so the same
    edge-segment formula extrapolates outside the knot range.
-/

namespace BagMetashape

/-- One row of the pose table built by extract_poses: the fields stored
for each message of the pose topic (timestamp_ns is the reader
timestamp; x is longitude, y latitude; heading, pitch, roll are in
radians). -/
structure PoseSample (K : Type) where
  timestamp_ns : K
  x : K
  y : K
  depth : K
  altitude_dvl : K
  heading : K
  pitch : K
  roll : K
  deriving Repr, DecidableEq

/-- One row of the image table built by extract_and_save_images:
filename, header timestamp, bag timestamp and sequence index. -/
structure ImageRecord (K : Type) where
  filename : String
  timestamp_ns : K
  bag_timestamp_ns : K
  index : Nat
  deriving Repr, DecidableEq

/-- One row of the matched table built by interpolate_poses_to_images:
the yaw, pitch and roll fields are in degrees. -/
structure MatchedRecord (K : Type) where
  filename : String
  longitude : K
  latitude : K
  altitude : K
  yaw : K
  pitch : K
  roll : K
  deriving Repr, DecidableEq

variable {K : Type} [LinearOrderedField K]

/-- Model of interp1d._call_linear on already-sorted knot lists:
searchsorted with side left on a sorted list returns the number of
elements strictly below the query; numpy clip(1, n-1) is
min (max _ 1) (n-1); out-of-range indices never occur for n ≥ 2 but
getD keeps the function total. -/
def callLinear (xs ys : List K) (t : K) : K :=
  let i := min (max (xs.countP (fun v => decide (v < t))) 1) (xs.length - 1)
  let xlo := xs.getD (i - 1) 0
  let xhi := xs.getD i 0
  let ylo := ys.getD (i - 1) 0
  let yhi := ys.getD i 0
  (yhi - ylo) / (xhi - xlo) * (t - xlo) + ylo

/-- Model of evaluating interp1d(x, y, kind linear, fill_value
extrapolate) at t: the constructor stably sorts the (x, y) pairs by x,
then evaluation is callLinear. -/
def interp1dVal (pts : List (K × K)) (t : K) : K :=
  let s := pts.mergeSort (fun a b => decide (a.1 ≤ b.1))
  callLinear (s.map Prod.fst) (s.map Prod.snd) t

/-- The ValueError message raised by the interp1d constructor when a
linear interpolant is requested over fewer than two knots. -/
def interp1dMinEntriesMsg : String := "x and y arrays must have at least 2 entries"

/-- The knot list handed to one of the six interp1d constructors in
interpolate_poses_to_images: pose timestamps paired with one channel. -/
def posePoints (ch : PoseSample K → K) (pose_df : List (PoseSample K)) : List (K × K) :=
  pose_df.map (fun p => (p.timestamp_ns, ch p))

/-- One output row of interpolate_poses_to_images: each channel is
interpolated at the bag timestamp of the image; the three angle
channels are multiplied by degFac afterwards (np.degrees is
multiplication by 180 / pi, supplied as degFac so that the generic
definition stays executable; the program instantiates it below). -/
def matchedOf (degFac : K) (pose_df : List (PoseSample K)) (img : ImageRecord K) :
    MatchedRecord K :=
  { filename := img.filename
    longitude := interp1dVal (posePoints (fun p => p.x) pose_df) img.bag_timestamp_ns
    latitude := interp1dVal (posePoints (fun p => p.y) pose_df) img.bag_timestamp_ns
    altitude := interp1dVal (posePoints (fun p => p.altitude_dvl) pose_df) img.bag_timestamp_ns
    yaw := interp1dVal (posePoints (fun p => p.heading) pose_df) img.bag_timestamp_ns * degFac
    pitch := interp1dVal (posePoints (fun p => p.pitch) pose_df) img.bag_timestamp_ns * degFac
    roll := interp1dVal (posePoints (fun p => p.roll) pose_df) img.bag_timestamp_ns * degFac }

/-- Shallow embedding of interpolate_poses_to_images: the early return
on an empty image table or an empty pose table comes first; then the
six interp1d constructors run, raising ValueError when the pose table
has fewer than two rows; otherwise one matched row is appended per
image row, in iteration order. -/
def interpolatePosesToImagesGen (degFac : K) (image_df : List (ImageRecord K))
    (pose_df : List (PoseSample K)) : Except String (List (MatchedRecord K)) :=
  if image_df.isEmpty || pose_df.isEmpty then .ok []
  else if pose_df.length < 2 then .error interp1dMinEntriesMsg
  else .ok (image_df.map (matchedOf degFac pose_df))

/-- Model of np.degrees: multiplication by 180 / pi. -/
noncomputable def np_degrees (r : ℝ) : ℝ := r * (180 / Real.pi)

/-- Model of np.radians: multiplication by pi / 180. -/
noncomputable def np_radians (d : ℝ) : ℝ := d * (Real.pi / 180)

/-- The program itself: interpolate_poses_to_images over the reals with
the genuine degree conversion factor. -/
noncomputable def interpolate_poses_to_images (image_df : List (ImageRecord ℝ))
    (pose_df : List (PoseSample ℝ)) : Except String (List (MatchedRecord ℝ)) :=
  interpolatePosesToImagesGen (180 / Real.pi) image_df pose_df

/-- The fixed header line that export_metashape_csv writes (pandas
to_csv with index False over the renamed columns). -/
def csvHeader : String := "label,longitude,latitude,altitude,yaw,pitch,roll"

/-- One data line of the exported CSV: label then the six numeric
fields; the numeric-to-text conversion of pandas is abstracted as fmt
(the spec fixes no precision contract for it). -/
def csvRow (fmt : K → String) (r : MatchedRecord K) : String :=
  r.filename ++ "," ++ fmt r.longitude ++ "," ++ fmt r.latitude ++ "," ++
    fmt r.altitude ++ "," ++ fmt r.yaw ++ "," ++ fmt r.pitch ++ "," ++ fmt r.roll

/-- Shallow embedding of export_metashape_csv: on an empty matched
table the function returns before any file write (none); otherwise the
written file is the header line followed by one line per record in
input order (some lines). -/
def export_metashape_csv (fmt : K → String) (matched_df : List (MatchedRecord K)) :
    Option (List String) :=
  if matched_df.isEmpty then none
  else some (csvHeader :: matched_df.map (csvRow fmt))

/-- Column maximum as pandas Series.max computes it on a nonempty
column (the empty case never reaches the statistics code because main
exits first; 0 is a junk default). -/
def colMax : List K → K
  | [] => 0
  | a :: t => t.foldl max a

/-- Column minimum, as colMax. -/
def colMin : List K → K
  | [] => 0
  | a :: t => t.foldl min a

/-- Column mean as pandas Series.mean computes it: sum over length. -/
def colMean (l : List K) : K := l.sum / (l.length : K)

/-- The lon_span_m statistic of main: (max lon - min lon) * 111000 *
np.cos(np.radians(mean lat)). -/
noncomputable def lon_span_m (pose_df : List (PoseSample ℝ)) : ℝ :=
  (colMax (pose_df.map (fun p => p.x)) - colMin (pose_df.map (fun p => p.x))) * 111000 *
    Real.cos (np_radians (colMean (pose_df.map (fun p => p.y))))

/-- The lat_span_m statistic of main: (max lat - min lat) * 111000. -/
noncomputable def lat_span_m (pose_df : List (PoseSample ℝ)) : ℝ :=
  (colMax (pose_df.map (fun p => p.y)) - colMin (pose_df.map (fun p => p.y))) * 111000

/-- Decimal rendering of a Nat exactly as Python str does: most
significant digit first, and str(0) is "0". -/
def pythonStr (n : Nat) : String :=
  if n = 0 then "0" else String.mk ((Nat.digits 10 n).reverse.map Nat.digitChar)

/-- The Python format spec 04d: the decimal digits left-padded with
zeros to a width of at least 4; wider numbers are kept whole, never
truncated. -/
def format04d (n : Nat) : String :=
  let s := pythonStr n
  String.mk (List.replicate (4 - s.length) '0') ++ s

/-- The filename assigned to the idx-th frame of a camera stream. -/
def imageFilename (pfx : String) (idx : Nat) : String :=
  pfx ++ "_" ++ format04d idx ++ ".jpg"

/-- The fields of one image message that survive into the image table
(pixel payloads and their decoding are external I/O and are not
modelled; only the record table that the function returns is). -/
structure ImageMsg where
  header_sec : Nat
  header_nanosec : Nat
  bag_timestamp_ns : Nat
  deriving Repr, DecidableEq

/-- Shallow embedding of the record table returned by
extract_and_save_images: the enumeration index idx names the file, the
header timestamp is sec * 1e9 + nanosec, and the bag timestamp is the
reader timestamp. -/
def extract_and_save_images (pfx : String) (msgs : List ImageMsg) : List (ImageRecord K) :=
  msgs.enum.map (fun e =>
    { filename := imageFilename pfx e.1
      timestamp_ns := ((e.2.header_sec * 1000000000 + e.2.header_nanosec : Nat) : K)
      bag_timestamp_ns := ((e.2.bag_timestamp_ns : Nat) : K)
      index := e.1 })

/-- Written from the words of the spec, for comparison with the code:
linear extrapolation of the segment through (t0, v0) and (t1, v1),
evaluated at t. -/
def specSegmentExtrapolation (t0 v0 t1 v1 t : K) : K :=
  v0 + (v1 - v0) / (t1 - t0) * (t - t0)

/-- Written from the words of the spec, for comparison with the code:
longitude span in meters from the column aggregates. -/
noncomputable def specLonSpanMeters (lonMax lonMin latMean : ℝ) : ℝ :=
  (lonMax - lonMin) * 111000 * Real.cos (np_radians latMean)

/-- Written from the words of the spec, for comparison with the code:
latitude span in meters from the column aggregates. -/
noncomputable def specLatSpanMeters (latMax latMin : ℝ) : ℝ :=
  (latMax - latMin) * 111000

/-- Default pose used only as the getD fallback in theorem statements. -/
def dfltPose : PoseSample K := ⟨0, 0, 0, 0, 0, 0, 0, 0⟩

/-- Concrete image fixture for counterexamples and witnesses. -/
def cImg : ImageRecord ℝ := ⟨"down_0000.jpg", 5, 5, 0⟩

/-- Second concrete image fixture. -/
def cImg2 : ImageRecord ℝ := ⟨"down_0001.jpg", 7, 7, 1⟩

/-- Concrete pose fixture. -/
def cPose : PoseSample ℝ := ⟨0, 1, 2, 0, 3, 4, 5, 6⟩

/-- Second concrete pose fixture, ten nanoseconds later. -/
def cPose2 : PoseSample ℝ := ⟨10, 2, 3, 0, 4, 5, 6, 7⟩

/-- Concrete image fixture for the C4 counterexample. -/
def dImg : ImageRecord ℝ := ⟨"forward_0000.jpg", 8, 8, 0⟩

/-- Concrete pose fixture for the C4 counterexample. -/
def dPose : PoseSample ℝ := ⟨3, 1, 1, 0, 1, 1, 1, 1⟩

/-- Rational pose fixture matching the spec example: longitude 0 at t 0. -/
def pe0 : PoseSample ℚ := ⟨0, 0, 4, 0, 5, 1, 2, 3⟩

/-- Rational pose fixture matching the spec example: longitude 10 at t 10. -/
def pe1 : PoseSample ℚ := ⟨10, 10, 8, 0, 9, 2, 3, 4⟩

/-- Rational pose fixture for the C5 witness. -/
def pq0 : PoseSample ℚ := ⟨0, 3, 4, 0, 5, 1, 2, 3⟩

/-- Second rational pose fixture for the C5 witness. -/
def pq1 : PoseSample ℚ := ⟨10, 7, 8, 0, 9, 2, 3, 4⟩

/-- Pose fixture with longitude range 0 to 1 degree at mean latitude 0. -/
def eqFixture : List (PoseSample ℝ) := [⟨0, 0, 0, 0, 0, 0, 0, 0⟩, ⟨1, 1, 0, 0, 0, 0, 0, 0⟩]

/-- Pose fixture with longitude range 0 to 1 degree at mean latitude 60. -/
def sixtyFixture : List (PoseSample ℝ) :=
  [⟨0, 0, 59, 0, 0, 0, 0, 0⟩, ⟨1, 1, 61, 0, 0, 0, 0, 0⟩]

/-- Concrete matched record fixture. -/
def mRec : MatchedRecord ℚ := ⟨"down_0000.jpg", 1, 2, 3, 4, 5, 6⟩

/-- Concrete image message fixture. -/
def mMsg : ImageMsg := ⟨1, 2, 3⟩

/-! ## Helper lemmas -/

theorem getD_eq_getElem {α : Type} (l : List α) (i : Nat) (h : i < l.length) (d : α) :
    l.getD i d = l[i] := by
  simp [List.getD_eq_getElem?_getD, List.getElem?_eq_getElem h]

theorem interp1dVal_of_sorted (pts : List (K × K)) (t : K)
    (hs : pts.Pairwise (fun a b => a.1 < b.1)) :
    interp1dVal pts t = callLinear (pts.map Prod.fst) (pts.map Prod.snd) t := by
  have hs' : pts.Pairwise (fun a b => (fun a b : K × K => decide (a.1 ≤ b.1)) a b) :=
    hs.imp (fun h => decide_eq_true (le_of_lt h))
  simp only [interp1dVal, List.mergeSort_of_sorted hs']

theorem countP_lt_of_forall_not (xs : List K) (t : K) (h : ∀ a ∈ xs, ¬ a < t) :
    xs.countP (fun v => decide (v < t)) = 0 :=
  List.countP_eq_zero.mpr (fun a ha => by simpa using h a ha)

theorem countP_lt_of_forall (xs : List K) (t : K) (h : ∀ a ∈ xs, a < t) :
    xs.countP (fun v => decide (v < t)) = xs.length :=
  List.countP_eq_length.mpr (fun a ha => by simpa using h a ha)

theorem countP_lt_getElem (xs : List K) (hs : xs.Pairwise (· < ·)) (k : Nat)
    (hk : k < xs.length) :
    xs.countP (fun v => decide (v < xs[k])) = k := by
  induction xs generalizing k with
  | nil => simp at hk
  | cons x rest ih =>
    rcases List.pairwise_cons.mp hs with ⟨hx, hrest⟩
    cases k with
    | zero =>
      simp only [List.getElem_cons_zero, List.countP_cons]
      rw [countP_lt_of_forall_not rest x (fun a ha => not_lt.mpr (le_of_lt (hx a ha)))]
      simp
    | succ j =>
      have hj : j < rest.length := by simpa using hk
      simp only [List.getElem_cons_succ, List.countP_cons]
      rw [ih hrest j hj]
      have : x < rest[j] := hx rest[j] (List.getElem_mem hj)
      simp [this]

theorem sorted_head_le (xs : List K) (hs : xs.Pairwise (· < ·)) (a : K) (ha : a ∈ xs)
    (h0 : 0 < xs.length) : xs[0] ≤ a := by
  obtain ⟨i, hi, rfl⟩ := List.mem_iff_getElem.mp ha
  cases i with
  | zero => exact le_refl _
  | succ j =>
    exact le_of_lt (List.pairwise_iff_getElem.mp hs 0 (j + 1) h0 hi (Nat.succ_pos j))

theorem sorted_le_last (xs : List K) (hs : xs.Pairwise (· < ·)) (a : K) (ha : a ∈ xs)
    (h0 : 0 < xs.length) : a ≤ xs[xs.length - 1] := by
  obtain ⟨i, hi, rfl⟩ := List.mem_iff_getElem.mp ha
  rcases Nat.lt_or_ge i (xs.length - 1) with h | h
  · exact le_of_lt (List.pairwise_iff_getElem.mp hs i (xs.length - 1) hi (by omega) h)
  · have : i = xs.length - 1 := by omega
    subst this
    exact le_refl _

theorem interp1dVal_at_knot (pts : List (K × K))
    (hs : pts.Pairwise (fun a b => a.1 < b.1)) (hlen : 2 ≤ pts.length)
    (k : Nat) (hk : k < pts.length) :
    interp1dVal pts (pts[k].1) = pts[k].2 := by
  rw [interp1dVal_of_sorted pts _ hs]
  have hxs : (pts.map Prod.fst).Pairwise (· < ·) := List.pairwise_map.mpr hs
  have hklen : k < (pts.map Prod.fst).length := by simpa using hk
  have hget : (pts.map Prod.fst)[k] = pts[k].1 := by simp
  have hc : (pts.map Prod.fst).countP (fun v => decide (v < pts[k].1)) = k := by
    rw [← hget]
    exact countP_lt_getElem _ hxs k hklen
  simp only [callLinear, hc, List.length_map]
  cases k with
  | zero =>
    have h1 : min (max 0 1) (pts.length - 1) = 1 := by omega
    rw [h1]
    rw [getD_eq_getElem (pts.map Prod.fst) 0 (by simpa using by omega) 0]
    rw [getD_eq_getElem (pts.map Prod.snd) 0 (by simpa using by omega) 0]
    rw [getD_eq_getElem (pts.map Prod.fst) 1 (by simpa using by omega) 0]
    rw [getD_eq_getElem (pts.map Prod.snd) 1 (by simpa using by omega) 0]
    simp
  | succ j =>
    have h1 : min (max (j + 1) 1) (pts.length - 1) = j + 1 := by omega
    rw [h1]
    have hj1 : j + 1 < pts.length := hk
    have hj0 : j < pts.length := by omega
    rw [getD_eq_getElem (pts.map Prod.fst) (j + 1 - 1) (by simpa using hj0) 0]
    rw [getD_eq_getElem (pts.map Prod.snd) (j + 1 - 1) (by simpa using hj0) 0]
    rw [getD_eq_getElem (pts.map Prod.fst) (j + 1) (by simpa using hj1) 0]
    rw [getD_eq_getElem (pts.map Prod.snd) (j + 1) (by simpa using hj1) 0]
    have hm1 : j + 1 < (pts.map Prod.fst).length := by simpa using hj1
    have hm0 : j + 1 - 1 < (pts.map Prod.fst).length := by simpa using hj0
    have hne : (pts.map Prod.fst)[j + 1] - (pts.map Prod.fst)[j + 1 - 1] ≠ 0 := by
      have := List.pairwise_iff_getElem.mp hxs j (j + 1) (by simpa using hj0)
        (by simpa using hj1) (Nat.lt_succ_self j)
      simp only [Nat.add_sub_cancel]
      exact sub_ne_zero.mpr (ne_of_gt this)
    simp only [Nat.add_sub_cancel] at hne ⊢
    rw [← hget, div_mul_cancel₀ _ hne]
    simp

theorem interp1dVal_below (pts : List (K × K))
    (hs : pts.Pairwise (fun a b => a.1 < b.1)) (hlen : 2 ≤ pts.length) (t : K)
    (ht : t < pts[0].1) :
    interp1dVal pts t =
      specSegmentExtrapolation (pts[0].1) (pts[0].2) (pts[1].1) (pts[1].2) t := by
  rw [interp1dVal_of_sorted pts _ hs]
  have hxs : (pts.map Prod.fst).Pairwise (· < ·) := List.pairwise_map.mpr hs
  have hlen' : 2 ≤ (pts.map Prod.fst).length := by simpa using hlen
  have hc : (pts.map Prod.fst).countP (fun v => decide (v < t)) = 0 := by
    refine countP_lt_of_forall_not _ t (fun a ha => not_lt.mpr (le_of_lt ?_))
    refine lt_of_lt_of_le ?_ (sorted_head_le _ hxs a ha (by omega))
    simpa using ht
  simp only [callLinear, hc, List.length_map]
  have h1 : min (max 0 1) (pts.length - 1) = 1 := by omega
  rw [h1]
  rw [getD_eq_getElem (pts.map Prod.fst) 0 (by simpa using by omega) 0]
  rw [getD_eq_getElem (pts.map Prod.snd) 0 (by simpa using by omega) 0]
  rw [getD_eq_getElem (pts.map Prod.fst) 1 (by simpa using by omega) 0]
  rw [getD_eq_getElem (pts.map Prod.snd) 1 (by simpa using by omega) 0]
  simp only [List.getElem_map, specSegmentExtrapolation]
  ring

theorem interp1dVal_above (pts : List (K × K))
    (hs : pts.Pairwise (fun a b => a.1 < b.1)) (hlen : 2 ≤ pts.length) (t : K)
    (ht : pts[pts.length - 1].1 < t) :
    interp1dVal pts t =
      specSegmentExtrapolation (pts[pts.length - 2].1) (pts[pts.length - 2].2)
        (pts[pts.length - 1].1) (pts[pts.length - 1].2) t := by
  rw [interp1dVal_of_sorted pts _ hs]
  have hxs : (pts.map Prod.fst).Pairwise (· < ·) := List.pairwise_map.mpr hs
  have hlen' : 2 ≤ (pts.map Prod.fst).length := by simpa using hlen
  have hc : (pts.map Prod.fst).countP (fun v => decide (v < t)) =
      (pts.map Prod.fst).length := by
    refine countP_lt_of_forall _ t (fun a ha => ?_)
    refine lt_of_le_of_lt (sorted_le_last _ hxs a ha (by omega)) ?_
    have hmaplen : 2 ≤ (pts.map Prod.fst).length := by simpa using hlen
    have : (pts.map Prod.fst)[(pts.map Prod.fst).length - 1] =
        pts[pts.length - 1].1 := by
      simp
    rw [this]
    exact ht
  simp only [callLinear, hc, List.length_map]
  have h1 : min (max pts.length 1) (pts.length - 1) = pts.length - 1 := by omega
  rw [h1]
  rw [getD_eq_getElem (pts.map Prod.fst) (pts.length - 1 - 1) (by simpa using by omega) 0]
  rw [getD_eq_getElem (pts.map Prod.snd) (pts.length - 1 - 1) (by simpa using by omega) 0]
  rw [getD_eq_getElem (pts.map Prod.fst) (pts.length - 1) (by simpa using by omega) 0]
  rw [getD_eq_getElem (pts.map Prod.snd) (pts.length - 1) (by simpa using by omega) 0]
  have h2 : pts.length - 1 - 1 = pts.length - 2 := by omega
  simp only [h2, List.getElem_map, specSegmentExtrapolation]
  ring

/-! ## Claims -/

/-- C3: if the pose table is empty, or the image record set is empty,
interpolate_poses_to_images skips interpolation entirely and returns an
empty result set rather than raising an error. -/
theorem C3_empty_input_returns_empty (image_df : List (ImageRecord ℝ))
    (pose_df : List (PoseSample ℝ)) (h : image_df = [] ∨ pose_df = []) :
    interpolate_poses_to_images image_df pose_df = .ok [] := by
  unfold interpolate_poses_to_images interpolatePosesToImagesGen
  rcases h with rfl | rfl <;> simp

/-- Witness for C3 at both empty inputs. -/
theorem C3_empty_input_returns_empty_witness :
    interpolate_poses_to_images [] [] = .ok [] :=
  C3_empty_input_returns_empty [] [] (Or.inl rfl)

/-- C1 counterexample: with a pose table of exactly one sample and a
nonempty image set, interpolate_poses_to_images does not return that
single sample for every query; the interp1d constructor raises
ValueError, so the result is an error, not a value. -/
theorem C1_counterexample :
    interpolate_poses_to_images [cImg] [cPose] = .error interp1dMinEntriesMsg ∧
      (interpolate_poses_to_images [cImg] [cPose]).toOption = none := by
  constructor <;> rfl

/-- C1 amended: for a pose table containing exactly one sample and a
nonempty image record set, interpolate_poses_to_images raises the
interp1d ValueError that linear interpolation needs at least two
entries; no per-query values are returned (the single-sample passthrough
described by the spec only happens for an empty image set, where the
function returns an empty result before touching interp1d). -/
theorem C1_single_sample_raises (image_df : List (ImageRecord ℝ)) (p : PoseSample ℝ)
    (h : image_df ≠ []) :
    interpolate_poses_to_images image_df [p] = .error interp1dMinEntriesMsg := by
  unfold interpolate_poses_to_images interpolatePosesToImagesGen
  have : image_df.isEmpty = false := by
    cases image_df with
    | nil => exact absurd rfl h
    | cons a l => rfl
  simp [this]

/-- Witness for C1 amended at a concrete image and pose. -/
theorem C1_single_sample_raises_witness :
    interpolate_poses_to_images [cImg2] [cPose] = .error interp1dMinEntriesMsg :=
  C1_single_sample_raises [cImg2] cPose (by simp)

/-- C4 counterexample: a nonempty image set with a nonempty pose table
of exactly one sample produces no matched records at all, because the
interp1d constructor raises; so the claim fails for single-sample pose
tables. -/
theorem C4_counterexample :
    ¬ ∃ out : List (MatchedRecord ℝ),
        interpolate_poses_to_images [dImg] [dPose] = .ok out ∧ out.length = 1 := by
  rintro ⟨out, hout, -⟩
  have herr : interpolate_poses_to_images [dImg] [dPose] = .error interp1dMinEntriesMsg := rfl
  rw [herr] at hout
  exact Except.noConfusion hout

/-- C4 amended: for every nonempty image record set and pose table with
at least two samples, interpolate_poses_to_images produces exactly one
matched record per input image record, in the same order: the i-th
output row is derived from the i-th input row. -/
theorem C4_one_matched_row_per_image (image_df : List (ImageRecord ℝ))
    (pose_df : List (PoseSample ℝ)) (him : image_df ≠ []) (hp : 2 ≤ pose_df.length) :
    ∃ out, interpolate_poses_to_images image_df pose_df = .ok out ∧
      out.length = image_df.length ∧
      (∀ i : Nat, out[i]? = (image_df[i]?).map (matchedOf (180 / Real.pi) pose_df)) ∧
      (∀ i : Nat, (out[i]?).map (fun r => r.filename) =
        (image_df[i]?).map (fun r => r.filename)) := by
  have him' : image_df.isEmpty = false := by
    cases image_df with
    | nil => exact absurd rfl him
    | cons a l => rfl
  have hp' : pose_df.isEmpty = false := by
    cases pose_df with
    | nil => simp at hp
    | cons a l => rfl
  refine ⟨image_df.map (matchedOf (180 / Real.pi) pose_df), ?_, by simp, ?_, ?_⟩
  · unfold interpolate_poses_to_images interpolatePosesToImagesGen
    rw [him', hp']
    simp only [Bool.or_self, Bool.false_eq_true, if_false]
    rw [if_neg (by omega)]
  · intro i
    simp
  · intro i
    simp [Option.map_map]
    rfl

/-- Witness for C4 amended at one image and two poses. -/
theorem C4_one_matched_row_per_image_witness :
    ∃ out, interpolate_poses_to_images [cImg] [cPose, cPose2] = .ok out ∧
      out.length = [cImg].length ∧
      (∀ i : Nat, out[i]? = (([cImg] : List (ImageRecord ℝ))[i]?).map
        (matchedOf (180 / Real.pi) [cPose, cPose2])) ∧
      (∀ i : Nat, (out[i]?).map (fun r => r.filename) =
        (([cImg] : List (ImageRecord ℝ))[i]?).map (fun r => r.filename)) :=
  C4_one_matched_row_per_image [cImg] [cPose, cPose2] (by simp) (by simp)

/-- C7: export_metashape_csv attempts a file write if and only if the
matched record set is nonempty; an empty set makes it return
immediately with no file written. -/
theorem C7_export_iff_nonempty (fmt : K → String)
    (matched_df : List (MatchedRecord K)) :
    (export_metashape_csv fmt matched_df).isSome = true ↔ matched_df ≠ [] := by
  unfold export_metashape_csv
  cases matched_df with
  | nil => simp
  | cons a l => simp

/-- C8: for every nonempty matched record set, export_metashape_csv
writes a table whose header is exactly
label,longitude,latitude,altitude,yaw,pitch,roll, with exactly one row
per input record, the i-th data row rendered from the i-th record (no
reordering). -/
theorem C8_export_layout (fmt : K → String) (matched_df : List (MatchedRecord K))
    (h : matched_df ≠ []) :
    export_metashape_csv fmt matched_df =
        some (csvHeader :: matched_df.map (csvRow fmt)) ∧
      csvHeader = "label,longitude,latitude,altitude,yaw,pitch,roll" ∧
      (matched_df.map (csvRow fmt)).length = matched_df.length ∧
      ∀ i : Nat, (matched_df.map (csvRow fmt))[i]? = (matched_df[i]?).map (csvRow fmt) := by
  have h' : matched_df.isEmpty = false := by
    cases matched_df with
    | nil => exact absurd rfl h
    | cons a l => rfl
  refine ⟨?_, rfl, by simp, fun i => by simp⟩
  unfold export_metashape_csv
  rw [h']
  simp

/-- Witness for C8 at a one-record table with a trivial formatter. -/
theorem C8_export_layout_witness :
    export_metashape_csv (fun _ : ℚ => "v") [mRec] =
        some (csvHeader :: [mRec].map (csvRow (fun _ : ℚ => "v"))) ∧
      csvHeader = "label,longitude,latitude,altitude,yaw,pitch,roll" ∧
      ([mRec].map (csvRow (fun _ : ℚ => "v"))).length = [mRec].length ∧
      ∀ i : Nat, ([mRec].map (csvRow (fun _ : ℚ => "v")))[i]? =
        (([mRec] : List (MatchedRecord ℚ))[i]?).map (csvRow (fun _ : ℚ => "v")) :=
  C8_export_layout (fun _ => "v") [mRec] (by simp)

/-- C5: for every pose table with at least two samples sorted by
timestamp (timestamps are unique per the data model, so sorted means
strictly increasing) and a query timestamp equal to the timestamp of an
existing sample, interpolation returns exactly that sample for every
channel ch. -/
theorem C5_query_at_sample_timestamp (pose_df : List (PoseSample K))
    (ch : PoseSample K → K)
    (hs : pose_df.Pairwise (fun a b => a.timestamp_ns < b.timestamp_ns))
    (hlen : 2 ≤ pose_df.length) (k : Nat) (hk : k < pose_df.length) :
    interp1dVal (posePoints ch pose_df) ((pose_df.getD k dfltPose).timestamp_ns) =
      ch (pose_df.getD k dfltPose) := by
  have hs' : (posePoints ch pose_df).Pairwise (fun a b => a.1 < b.1) := by
    unfold posePoints
    exact List.pairwise_map.mpr hs
  have hlen' : 2 ≤ (posePoints ch pose_df).length := by
    simpa [posePoints] using hlen
  have hk' : k < (posePoints ch pose_df).length := by
    simpa [posePoints] using hk
  have h1 : ((posePoints ch pose_df)[k]).1 = (pose_df.getD k dfltPose).timestamp_ns := by
    rw [getD_eq_getElem pose_df k hk]
    simp [posePoints]
  have h2 : ((posePoints ch pose_df)[k]).2 = ch (pose_df.getD k dfltPose) := by
    rw [getD_eq_getElem pose_df k hk]
    simp [posePoints]
  rw [← h1, ← h2]
  exact interp1dVal_at_knot _ hs' hlen' k hk'

/-- Witness for C5: the two-sample rational fixture queried at the
timestamp of its second sample on the longitude channel returns that
sample. -/
theorem C5_query_at_sample_timestamp_witness :
    interp1dVal (posePoints (fun p => p.x) [pq0, pq1]) 10 = 7 := by
  have h := C5_query_at_sample_timestamp [pq0, pq1] (fun p => p.x)
    (by simp [pq0, pq1]) (by simp) 1 (by simp)
  simpa [pq0, pq1] using h

/-- C2: for every pose table with at least two samples sorted (strictly)
by timestamp and a query timestamp strictly before the first or strictly
after the last sample, each channel is linearly extrapolated along the
slope of the nearest edge segment, not clamped to the edge value. -/
theorem C2_edge_extrapolation (pose_df : List (PoseSample K)) (ch : PoseSample K → K)
    (hs : pose_df.Pairwise (fun a b => a.timestamp_ns < b.timestamp_ns))
    (hlen : 2 ≤ pose_df.length) (t : K) :
    (t < (pose_df.getD 0 dfltPose).timestamp_ns →
      interp1dVal (posePoints ch pose_df) t =
        specSegmentExtrapolation (pose_df.getD 0 dfltPose).timestamp_ns
          (ch (pose_df.getD 0 dfltPose)) (pose_df.getD 1 dfltPose).timestamp_ns
          (ch (pose_df.getD 1 dfltPose)) t) ∧
    ((pose_df.getD (pose_df.length - 1) dfltPose).timestamp_ns < t →
      interp1dVal (posePoints ch pose_df) t =
        specSegmentExtrapolation (pose_df.getD (pose_df.length - 2) dfltPose).timestamp_ns
          (ch (pose_df.getD (pose_df.length - 2) dfltPose))
          (pose_df.getD (pose_df.length - 1) dfltPose).timestamp_ns
          (ch (pose_df.getD (pose_df.length - 1) dfltPose)) t) := by
  have hs' : (posePoints ch pose_df).Pairwise (fun a b => a.1 < b.1) := by
    unfold posePoints
    exact List.pairwise_map.mpr hs
  have hlen' : 2 ≤ (posePoints ch pose_df).length := by
    simpa [posePoints] using hlen
  have hplen : (posePoints ch pose_df).length = pose_df.length := by
    simp [posePoints]
  have hpt : ∀ (i : Nat), i < pose_df.length →
      ∀ (hb : i < (posePoints ch pose_df).length),
      (posePoints ch pose_df)[i] =
        ((pose_df.getD i dfltPose).timestamp_ns, ch (pose_df.getD i dfltPose)) := by
    intro i h hb
    rw [getD_eq_getElem pose_df i h]
    simp [posePoints]
  constructor
  · intro ht
    have h0 := hpt 0 (by omega) (by omega)
    have h1 := hpt 1 (by omega) (by omega)
    have := interp1dVal_below (posePoints ch pose_df) hs' hlen' t (by rw [h0]; exact ht)
    rw [this, h0, h1]
  · intro ht
    have hn1 := hpt (pose_df.length - 1) (by omega) (by omega)
    have hn2 := hpt (pose_df.length - 2) (by omega) (by omega)
    have harg : ((posePoints ch pose_df)[(posePoints ch pose_df).length - 1]).1 < t := by
      simp only [hplen]
      rw [hn1]
      exact ht
    have hrw := interp1dVal_above (posePoints ch pose_df) hs' hlen' t harg
    rw [hrw]
    simp only [hplen, hn1, hn2]

/-- Witness for C2 on the spec example: longitude samples 0 and 10 at
timestamps 0 and 10, queried at 20, extrapolate to 20. -/
theorem C2_edge_extrapolation_witness :
    interp1dVal (posePoints (fun p => p.x) [pe0, pe1]) 20 = 20 := by
  have h := (C2_edge_extrapolation [pe0, pe1] (fun p => p.x)
    (by simp [pe0, pe1]) (by simp) 20).2
  rw [h (by norm_num [pe0, pe1])]
  norm_num [pe0, pe1, specSegmentExtrapolation, dfltPose]

theorem getD_map_mul (ys : List K) (c : K) (i : Nat) :
    (ys.map (fun y => y * c)).getD i 0 = ys.getD i 0 * c := by
  simp only [List.getD_eq_getElem?_getD, List.getElem?_map]
  cases h : ys[i]? <;> simp

theorem callLinear_scale (xs ys : List K) (c t : K) :
    callLinear xs (ys.map (fun y => y * c)) t = callLinear xs ys t * c := by
  simp only [callLinear, List.length_map, getD_map_mul]
  ring

theorem interp1dVal_scale (pts : List (K × K)) (c t : K) :
    interp1dVal (pts.map (fun q => (q.1, q.2 * c))) t = interp1dVal pts t * c := by
  unfold interp1dVal
  rw [← @List.map_mergeSort (K × K) (K × K) (fun a b => decide (a.1 ≤ b.1))
    (fun a b => decide (a.1 ≤ b.1)) (fun q => (q.1, q.2 * c)) pts (fun a _ b _ => rfl)]
  simp only [List.map_map]
  have h1 : (Prod.fst ∘ fun q : K × K => (q.1, q.2 * c)) = Prod.fst := rfl
  have h2 : (Prod.snd ∘ fun q : K × K => (q.1, q.2 * c)) =
      (fun y => y * c) ∘ Prod.snd := rfl
  rw [h1, h2, ← List.map_map]
  exact callLinear_scale _ _ c t

/-- C6: heading, pitch and roll are interpolated in radians and
converted to degrees only after interpolation, and for every pose table
and query timestamp the result equals converting each sample to degrees
first and then interpolating: the conversion commutes with linear
interpolation because it is a constant scaling and no wraparound
handling exists in either order. -/
theorem C6_degrees_after_interpolation (pose_df : List (PoseSample ℝ))
    (img : ImageRecord ℝ) :
    (matchedOf (180 / Real.pi) pose_df img).yaw =
      interp1dVal ((posePoints (fun p => p.heading) pose_df).map
        (fun q => (q.1, np_degrees q.2))) img.bag_timestamp_ns ∧
    (matchedOf (180 / Real.pi) pose_df img).pitch =
      interp1dVal ((posePoints (fun p => p.pitch) pose_df).map
        (fun q => (q.1, np_degrees q.2))) img.bag_timestamp_ns ∧
    (matchedOf (180 / Real.pi) pose_df img).roll =
      interp1dVal ((posePoints (fun p => p.roll) pose_df).map
        (fun q => (q.1, np_degrees q.2))) img.bag_timestamp_ns := by
  have he : (fun q : ℝ × ℝ => (q.1, np_degrees q.2)) =
      (fun q : ℝ × ℝ => (q.1, q.2 * (180 / Real.pi))) := by
    funext q
    simp [np_degrees]
  refine ⟨?_, ?_, ?_⟩ <;> simp only [matchedOf, he, interp1dVal_scale]

/-- C9: the mission summary longitude span in meters is the longitude
range times 111000 times the cosine of the mean latitude in radians,
and the latitude span is the latitude range times 111000; at mean
latitude 0 a one-degree longitude range gives 111000 m and at mean
latitude 60 it gives 55500 m. -/
theorem C9_span_statistics (pose_df : List (PoseSample ℝ)) (h : pose_df ≠ []) :
    lon_span_m pose_df =
        specLonSpanMeters (colMax (pose_df.map (fun p => p.x)))
          (colMin (pose_df.map (fun p => p.x))) (colMean (pose_df.map (fun p => p.y))) ∧
      lat_span_m pose_df =
        specLatSpanMeters (colMax (pose_df.map (fun p => p.y)))
          (colMin (pose_df.map (fun p => p.y))) ∧
      lon_span_m eqFixture = 111000 ∧
      lon_span_m sixtyFixture = 55500 := by
  refine ⟨rfl, rfl, ?_, ?_⟩
  · unfold lon_span_m eqFixture colMax colMin colMean np_radians
    norm_num [Real.cos_zero, max_def, min_def]
  · unfold lon_span_m sixtyFixture colMax colMin colMean np_radians
    norm_num [max_def, min_def]
    rw [show (60 : ℝ) * (Real.pi / 180) = Real.pi / 3 from by ring,
      Real.cos_pi_div_three]
    norm_num

/-- Witness for C9 at the equator fixture. -/
theorem C9_span_statistics_witness :
    lon_span_m eqFixture =
        specLonSpanMeters (colMax (eqFixture.map (fun p => p.x)))
          (colMin (eqFixture.map (fun p => p.x)))
          (colMean (eqFixture.map (fun p => p.y))) ∧
      lat_span_m eqFixture =
        specLatSpanMeters (colMax (eqFixture.map (fun p => p.y)))
          (colMin (eqFixture.map (fun p => p.y))) ∧
      lon_span_m eqFixture = 111000 ∧
      lon_span_m sixtyFixture = 55500 :=
  C9_span_statistics eqFixture (by simp [eqFixture])

theorem pythonStr_length_le_four (n : Nat) (h : n ≤ 9999) : (pythonStr n).length ≤ 4 := by
  unfold pythonStr
  by_cases h0 : n = 0
  · subst h0
    simp only [if_pos rfl]
    decide
  · rw [if_neg h0]
    simp only [String.length_mk, List.length_map, List.length_reverse]
    rw [Nat.digits_len 10 n (by norm_num) h0]
    have hlt : n < 10 ^ 4 := by omega
    have := Nat.log_lt_of_lt_pow h0 hlt
    omega

theorem pythonStr_length_ge_five (n : Nat) (h : 10000 ≤ n) : 5 ≤ (pythonStr n).length := by
  unfold pythonStr
  have h0 : n ≠ 0 := by omega
  rw [if_neg h0]
  simp only [String.length_mk, List.length_map, List.length_reverse]
  rw [Nat.digits_len 10 n (by norm_num) h0]
  have hle : 10 ^ 4 ≤ n := by omega
  have := (Nat.pow_le_iff_le_log (by norm_num) h0).mp hle
  omega

theorem format04d_length_four (n : Nat) (h : n ≤ 9999) : (format04d n).length = 4 := by
  unfold format04d
  have := pythonStr_length_le_four n h
  simp only [String.length_append, String.length_mk, List.length_replicate]
  omega

theorem format04d_wide (n : Nat) (h : 10000 ≤ n) : format04d n = pythonStr n := by
  simp only [format04d]
  have h5 := pythonStr_length_ge_five n h
  rw [show 4 - (pythonStr n).length = 0 from by omega]
  simp only [List.replicate_zero]
  exact String.empty_append _

/-- C10: the i-th image record produced by extract_and_save_images has
sequence index i and filename made of the camera name, an underscore,
the index zero-padded to 4 digits, and the jpg suffix; the 4-digit form
holds only up to index 9999, and from 10000 on the numeric part widens
to the full decimal representation instead of truncating. -/
theorem C10_image_record_naming (pfx : String) (msgs : List ImageMsg) (i : Nat)
    (h : i < msgs.length) :
    ∃ r : ImageRecord K, (extract_and_save_images pfx msgs)[i]? = some r ∧
      r.index = i ∧ r.filename = pfx ++ "_" ++ format04d i ++ ".jpg" ∧
      (i ≤ 9999 → (format04d i).length = 4) ∧
      (10000 ≤ i → format04d i = pythonStr i ∧ 5 ≤ (pythonStr i).length) := by
  have hlen2 : i < (extract_and_save_images pfx msgs : List (ImageRecord K)).length := by
    simpa [extract_and_save_images] using h
  refine ⟨(extract_and_save_images pfx msgs : List (ImageRecord K))[i],
    List.getElem?_eq_getElem hlen2,
    ?_, ?_, fun hle => format04d_length_four i hle,
    fun hge => ⟨format04d_wide i hge, pythonStr_length_ge_five i hge⟩⟩
  · simp [extract_and_save_images, List.enum]
  · simp [extract_and_save_images, List.enum, imageFilename]

/-- Witness for C10 at a one-message stream and index 0. -/
theorem C10_image_record_naming_witness :
    ∃ r : ImageRecord ℚ, (extract_and_save_images "down" [mMsg])[0]? = some r ∧
      r.index = 0 ∧ r.filename = "down" ++ "_" ++ format04d 0 ++ ".jpg" ∧
      (0 ≤ 9999 → (format04d 0).length = 4) ∧
      (10000 ≤ 0 → format04d 0 = pythonStr 0 ∧ 5 ≤ (pythonStr 0).length) :=
  C10_image_record_naming "down" [mMsg] 0 (by simp)

end BagMetashape
